import Mathlib

/-!
Verification of the build-preparation core ("Chef") of the repository:
`src/poetry/installation/chef.py`.

The embedding models:
 - paths as lists of components, with pathlib's `suffix` computed from the
   final component exactly as `pathlib.PurePath.suffix` does;
 - Python's `str.rstrip(chars)` (strip a trailing run of characters drawn
   from the character set `chars`);
 - the filesystem as a `World` carrying the set of existing directories, a
   counter used to mint fresh temporary-directory names, and a chronological
   event log (temp-dir creation, mkdir, backend build invocations, recursive
   removal);
 - the external collaborators (isolated backend builder, archive extraction,
   artifact cache) as oracles passed in as functions, so every theorem
   quantifies over their behaviour.
-/

namespace Chef

/-- A filesystem path, modelled as its list of components. -/
abbrev Path := List String

/-- The final component of a path (pathlib `.name`); empty for the empty path. -/
def pathName (p : Path) : String := p.getLastD ""

/-- pathlib `PurePath.suffix` of a file name: the substring from the last dot,
provided that dot is neither the first nor the last character of the name;
otherwise the empty string.  This is a faithful transcription of
`pathlib`'s implementation (`i = name.rfind(chr(46)); i if 0 < i < len(name)-1`). -/
def pySuffix (name : String) : String :=
  let cs := name.data
  let n := cs.length
  if '.' ∈ cs then
    let i := n - 1 - cs.reverse.indexOf '.'
    if 0 < i ∧ i < n - 1 then String.mk (cs.drop i) else ""
  else ""

/-- Python `str.rstrip(chars)`: remove the longest trailing run of characters
each of which occurs in `chars` (a character *set*, not a suffix string).
`rstrip` with empty `chars` removes nothing. -/
def pyRstrip (s : String) (chars : String) : String :=
  String.mk ((s.data.reverse.dropWhile (fun c => chars.data.contains c)).reverse)

/-! ## Data model -/

/-- Build settings: the opaque key/value mapping (`config_settings: dict`),
modelled by its list of entries. -/
abbrev Settings := List (String × String)

/-- A top-level entry of the unpacked archive directory, as seen by
`archive_dir.glob` and the `is_dir` checks of `_prepare_sdist`. -/
structure Entry where
  name : String
  is_dir : Bool
deriving DecidableEq, Repr

/-- One invocation of the isolated backend builder
(`builder.build(distribution, destination.as_posix(), config_settings)`
on the builder obtained from `isolated_builder(source=directory, ...)`). -/
structure BuildCall where
  source : Path
  distribution : String
  destination : Path
  config_settings : Settings
deriving DecidableEq, Repr

/-- A `subprocess.CalledProcessError`: captured output byte streams, each
either absent (`None`) or a (possibly empty) byte string.  Byte strings are
modelled as text. -/
structure CalledProcessError where
  stderr : Option String
  stdout : Option String
deriving DecidableEq, Repr

/-- The inner exception `e.exception` carried by a `BuildBackendException`:
either a process exit failure or any other exception, kept as its `str` form. -/
inductive BackendCause
  | process (p : CalledProcessError)
  | other (strForm : String)
deriving DecidableEq, Repr

/-- `build.BuildBackendException`: `message` is `str(e)`, `exception` is the
inner cause `e.exception`. -/
structure BuildBackendException where
  message : String
  exception : BackendCause
deriving DecidableEq, Repr

/-- An exception value foreign to the Chef (anything that is not a
`BuildBackendException`), carried with an identity so that "propagates
unmodified" is expressible. -/
structure ExternalExn where
  id : Nat
  detail : String
deriving DecidableEq, Repr

/-- Exceptions observable from `prepare`.  Modelled from the spec: the
`IsolatedBuildError` raised on translation lives in
`poetry.utils.isolated_build`, which is not under `src/`; per the spec it is
the single "`ChefError`-kind" failure used for "the build itself failed".
`chained` models Python's `__cause__`: `raise error from None` yields
`chained = none`. -/
inductive PyExn
  | isolatedBuildError (message : String) (chained : Option ExternalExn)
  | external (e : ExternalExn)
deriving DecidableEq, Repr

instance {ε α : Type} [DecidableEq ε] [DecidableEq α] :
    DecidableEq (Except ε α) := fun x y =>
  match x, y with
  | Except.ok a, Except.ok b =>
      if h : a = b then isTrue (by rw [h])
      else isFalse (fun hc => h (Except.ok.inj hc))
  | Except.error a, Except.error b =>
      if h : a = b then isTrue (by rw [h])
      else isFalse (fun hc => h (Except.error.inj hc))
  | Except.ok _, Except.error _ => isFalse (fun hc => Except.noConfusion hc)
  | Except.error _, Except.ok _ => isFalse (fun hc => Except.noConfusion hc)

/-- Whether an exception is of the `ChefError` kind (the normalized build
failure), as opposed to a foreign exception passing through. -/
def PyExn.isChefErrorKind : PyExn → Bool
  | PyExn.isolatedBuildError _ _ => true
  | PyExn.external _ => false

/-- Outcome of one backend build call, as seen at the `builder.build` call
site inside `Chef._prepare`: a produced artifact path, a raised
`BuildBackendException`, or any other raised exception. -/
inductive BuildOutcome
  | ok (artifact : Path)
  | backendError (e : BuildBackendException)
  | otherError (e : ExternalExn)
deriving DecidableEq, Repr

/-- The behaviour of the isolated backend builder, as an oracle. -/
abbrev Backend := BuildCall → BuildOutcome

/-- Events performed by the Chef, in chronological order. -/
inductive Event
  | mkdtempEv (p : Path)
  | tmpdirEv (p : Path)
  | mkdirEv (p : Path)
  | buildEv (c : BuildCall)
  | rmtreeEv (p : Path)
deriving DecidableEq, Repr

/-- The world the Chef acts on: existing directories, a counter minting fresh
temporary-directory names, and the chronological event log. -/
structure World where
  dirs : List Path
  tempCounter : Nat
  events : List Event
deriving DecidableEq, Repr

/-- `p.is_dir()`: the path exists and is a directory. -/
def is_dir (w : World) (p : Path) : Bool := w.dirs.contains p

/-- The name of the `n`-th temporary directory minted by this process
(`tempfile.mkdtemp` / `temporary_directory` both draw fresh names). -/
def tempPath (n : Nat) : Path := ["poetry-tmp-" ++ toString n]

/-- `tempfile.mkdtemp(...)` in `Chef.prepare`: creates and returns a fresh
temporary directory. -/
def mkdtemp (w : World) : Path × World :=
  let p := tempPath w.tempCounter
  (p, { dirs := p :: w.dirs, tempCounter := w.tempCounter + 1,
        events := w.events ++ [Event.mkdtempEv p] })

/-- Modelled from the spec: `temporary_directory` (from
`poetry.core.utils.helpers`, not under `src/`) is a scoped resource — it
creates a fresh temporary directory on entry and the directory is removed
when the scope exits on any path.  This is its entry action; the scope-exit
removal is performed by `removeTree` at the end of `_prepare_sdist`. -/
def temporaryDirectory (w : World) : Path × World :=
  let p := tempPath w.tempCounter
  (p, { dirs := p :: w.dirs, tempCounter := w.tempCounter + 1,
        events := w.events ++ [Event.tmpdirEv p] })

/-- The proper ancestors of a path together with the path itself. -/
def selfAndAncestors (p : Path) : List Path :=
  (List.range p.length).map (fun k => p.take (k + 1))

/-- `destination.mkdir(parents=True, exist_ok=True)`: the directory and all
its ancestors exist afterwards. -/
def mkdirParents (w : World) (p : Path) : World :=
  { w with dirs := selfAndAncestors p ++ w.dirs,
           events := w.events ++ [Event.mkdirEv p] }

/-- Recursive removal of a directory tree (the scope-exit cleanup of
`temporary_directory`): every path at or below `p` ceases to exist. -/
def removeTree (w : World) (p : Path) : World :=
  { w with dirs := w.dirs.filter (fun q => !(p.isPrefixOf q)),
           events := w.events ++ [Event.rmtreeEv p] }

/-- The backend build calls recorded in the event log, in order. -/
def buildEvents (w : World) : List BuildCall :=
  w.events.filterMap (fun ev =>
    match ev with
    | Event.buildEv c => some c
    | _ => none)

/-! ## The Chef operations, transcribed from `src/poetry/installation/chef.py` -/

/-- Modelled from the spec: `decode` (from `poetry.utils._compat`, not under
`src/`) decodes captured process output bytes into text; on our textual model
of byte streams it is the identity. -/
def decode (b : String) : String := b

/-- Python `a or b` on the optional byte strings
`e.exception.stderr or e.exception.stdout`: `None` and the empty byte string
are falsy, so an absent *or empty* `stderr` falls through to `stdout`. -/
def pyOrBytes : Option String → Option String → Option String
  | some s, b => if s = "" then b else some s
  | none, b => b

/-- The message of the error raised by `Chef._prepare` when the backend call
raises `BuildBackendException e`: `message_parts = [str(e)]`; when the inner
exception is a `CalledProcessError`, `text = e.exception.stderr or
e.exception.stdout` and `decode(text)` is appended when `text is not None`;
otherwise `str(e.exception)` is appended; the parts are joined by a blank
line. -/
def translateBackendError (e : BuildBackendException) : String :=
  let message_parts : List String :=
    match e.exception with
    | BackendCause.process p =>
        match pyOrBytes p.stderr p.stdout with
        | some text => [e.message, decode text]
        | none => [e.message]
    | BackendCause.other s => [e.message, s]
  String.intercalate "\n\n" message_parts

/-- `Chef._is_wheel`: `archive.suffix == chr(46) + "whl"`. -/
def _is_wheel (archive : Path) : Bool := pySuffix (pathName archive) == ".whl"

/-- `Chef._should_prepare`: `archive.is_dir() or not cls._is_wheel(archive)`. -/
def _should_prepare (w : World) (archive : Path) : Bool :=
  is_dir w archive || !(_is_wheel archive)

/-- The root-detection step of `Chef._prepare_sdist` when the unpacked
directory does not consist of a single subdirectory: the candidate
subdirectory is named `archive.name.rstrip(suffix)`; it is chosen when it
exists and is a directory, else the unpacked directory itself (`none`). -/
def fallbackRoot (archiveName : String) (elements : List Entry) : Option String :=
  let cand := pyRstrip archiveName (pySuffix archiveName)
  if elements.any (fun e => e.name == cand && e.is_dir) then some cand else none

/-- The root-detection algorithm of `Chef._prepare_sdist`, on the list of
top-level entries of the unpacked directory: `some name` denotes the
subdirectory `name` of the unpacked directory, `none` the unpacked directory
itself.  Transcribed: `if len(elements) == 1 and elements[0].is_dir()` choose
that entry, else the `rstrip` candidate when it is a directory, else the
unpacked directory. -/
def sdistRootDir (archiveName : String) (elements : List Entry) : Option String :=
  match elements with
  | [e] => if e.is_dir then some e.name else fallbackRoot archiveName elements
  | _ => fallbackRoot archiveName elements

/-- `Chef._prepare(directory, destination, editable, config_settings)`:
choose the distribution kind, invoke the isolated backend builder, return the
produced path; a `BuildBackendException` is translated into an
`IsolatedBuildError` raised `from None`, any other exception from the build
call propagates unmodified.  The backend's behaviour is the oracle
`backend`. -/
def _prepare (backend : Backend) (w : World) (directory : Path)
    (destination : Path) (editable : Bool) (config_settings : Settings) :
    Except PyExn Path × World :=
  let distribution := if !editable then "wheel" else "editable"
  let call : BuildCall :=
    { source := directory, distribution := distribution,
      destination := destination, config_settings := config_settings }
  let w := { w with events := w.events ++ [Event.buildEv call] }
  let res : Except PyExn Path :=
    match backend call with
    | BuildOutcome.ok artifact => Except.ok artifact
    | BuildOutcome.backendError e =>
        Except.error (PyExn.isolatedBuildError (translateBackendError e) none)
    | BuildOutcome.otherError e => Except.error (PyExn.external e)
  (res, w)

/-- `Chef._prepare_sdist(archive, destination)`: unpack the archive into a
scoped temporary directory (`extractall` is external; the oracle `unpack`
gives the resulting top-level entries, and the `zip` flag it receives —
`suffix == chr(46) + "zip"` — does not affect the entries), resolve the
project root, resolve the destination through the artifact cache when none
was supplied (`cacheDir` models `get_cache_directory_for_link(Link(...))`),
create the destination with `mkdir(parents=True, exist_ok=True)`, and build
via `_prepare` with its *default* arguments `editable=False` and an empty
`config_settings`.  The temporary directory is removed when the scope
exits. -/
def _prepare_sdist (backend : Backend) (unpack : Path → List Entry)
    (cacheDir : Path → Path) (w : World) (archive : Path)
    (destination : Option Path) : Except PyExn Path × World :=
  let (tmp_dir, w) := temporaryDirectory w
  let elements := unpack archive
  let sdist_dir : Path :=
    match sdistRootDir (pathName archive) elements with
    | some name => tmp_dir ++ [name]
    | none => tmp_dir
  let destination :=
    match destination with
    | none => cacheDir archive
    | some d => d
  let w := mkdirParents w destination
  let (res, w) := _prepare backend w sdist_dir destination false []
  let w := removeTree w tmp_dir
  (res, w)

/-- `Chef.prepare(archive, output_dir=None, editable=False,
config_settings=...)`: return the archive unchanged unless
`_should_prepare`; build a directory artifact directly (minting a fresh
temporary destination when `output_dir` is `None`); route any other artifact
through `_prepare_sdist(archive, destination=output_dir)` — note that
`editable` and `config_settings` are not passed along on that path, exactly
as in the source. -/
def prepare (backend : Backend) (unpack : Path → List Entry)
    (cacheDir : Path → Path) (w : World) (archive : Path)
    (output_dir : Option Path) (editable : Bool)
    (config_settings : Settings) : Except PyExn Path × World :=
  if !(_should_prepare w archive) then (Except.ok archive, w)
  else if is_dir w archive then
    let (destination, w) :=
      match output_dir with
      | some d => (d, w)
      | none => mkdtemp w
    _prepare backend w archive destination editable config_settings
  else
    _prepare_sdist backend unpack cacheDir w archive output_dir

/-! ## Statement helpers and claim-side definitions -/

/-- Textual ends-with on the characters of two strings: the claim's
"name ends in" relation. -/
def strEndsWith (s t : String) : Bool := t.data.isSuffixOf s.data

/-- Plain suffix removal: the string with the given suffix stripped when it
ends with it, unchanged otherwise (the claim's "filename with its suffix
stripped"). -/
def stripSuffixStr (s t : String) : String :=
  if strEndsWith s t then String.mk (s.data.take (s.data.length - t.data.length))
  else s

/-- The fallback step of the root-detection algorithm as the claim words it:
a subdirectory named after the archive's filename with its *suffix
stripped*. -/
def claimFallbackRoot (archiveName : String) (elements : List Entry) :
    Option String :=
  let cand := stripSuffixStr archiveName (pySuffix archiveName)
  if elements.any (fun e => e.name == cand && e.is_dir) then some cand else none

/-- The root-detection algorithm exactly as the claim states it. -/
def sdistRootDirClaim (archiveName : String) (elements : List Entry) :
    Option String :=
  match elements with
  | [e] => if e.is_dir then some e.name else claimFallbackRoot archiveName elements
  | _ => claimFallbackRoot archiveName elements

/-- An unpack oracle for the archive `pyzip.zip`: a directory named after the
archive's suffix-stripped filename, next to a second entry. -/
def pyzipEntries : Path → List Entry := fun _ =>
  [{ name := "pyzip", is_dir := true }, { name := "other", is_dir := false }]

/-- The fallback step of the amended claim: the candidate subdirectory is
named after the archive's filename with its longest trailing run of
characters drawn from the suffix's character set removed (Python
`str.rstrip`). -/
def amendedFallbackRoot (archiveName : String) (elements : List Entry) :
    Option String :=
  let cand := pyRstrip archiveName (pySuffix archiveName)
  if elements.any (fun e => e.name == cand && e.is_dir) then some cand else none

/-- The root-detection algorithm as amended: step 2 as claimed; step 3 with
`rstrip`-style candidate naming; step 4 as claimed. -/
def sdistRootDirAmended (archiveName : String) (elements : List Entry) :
    Option String :=
  match elements.head? with
  | some e =>
      if elements.length = 1 && e.is_dir then some e.name
      else amendedFallbackRoot archiveName elements
  | none => amendedFallbackRoot archiveName elements

/-- The failure message as the claim words it: the backend description first,
joined by a blank line to the decoded captured standard-error, or — only if
standard-error is absent (`None`) — the decoded standard-output; the inner
exception's string form for non-process causes. -/
def composedMessageClaim (e : BuildBackendException) : String :=
  match e.exception with
  | BackendCause.process p =>
      match p.stderr with
      | some s => e.message ++ "\n\n" ++ decode s
      | none =>
          match p.stdout with
          | some s => e.message ++ "\n\n" ++ decode s
          | none => e.message
  | BackendCause.other s => e.message ++ "\n\n" ++ s

/-- A backend failure whose process exit captured an *empty* stderr byte
string alongside a non-empty stdout. -/
def emptyStderrExc : BuildBackendException :=
  { message := "Backend operation failed",
    exception := BackendCause.process
      { stderr := some "", stdout := some "ModuleNotFoundError: setuptools" } }

/-- The failure message as amended: the second part is the decoded stderr
when it was captured non-empty; otherwise the decoded stdout when that was
captured (a captured-but-empty stderr falls through to stdout, and a
captured-but-empty stdout still contributes an empty second part with its
separator); no second part when neither applies; the inner exception's
string form for non-process causes. -/
def composedMessageAmended (e : BuildBackendException) : String :=
  match e.exception with
  | BackendCause.process p =>
      let text := if p.stderr ≠ none ∧ p.stderr ≠ some "" then p.stderr else p.stdout
      match text with
      | some t => e.message ++ "\n\n" ++ decode t
      | none => e.message
  | BackendCause.other s => e.message ++ "\n\n" ++ s

/-- A heap of Python dict objects, addressed by naturals. -/
abbrev Heap := Nat → Settings

/-- Python evaluates a function's default argument once, when the `def` is
executed; every later call that omits the argument receives that same
object.  This is the address of the single dict allocated for
`config_settings` in the line `def prepare(self, archive, output_dir=None, *,
editable=False, config_settings: dict = ...)`. -/
def prepareDefaultSettingsAddr : Nat := 0

/-- The dict object a `prepare` call hands to the backend as its
`config_settings`: the explicitly passed object, or the shared default
allocated at definition time when the argument is omitted. -/
def settingsAddrForCall (explicitArg : Option Nat) : Nat :=
  explicitArg.getD prepareDefaultSettingsAddr

/-- In-place mutation of the dict at an address. -/
def heapSet (h : Heap) (a : Nat) (v : Settings) : Heap :=
  fun b => if b = a then v else h b

/-- One `prepare` call viewed through its settings mapping: the call resolves
the `config_settings` reference, the backend observes the mapping stored
there and may mutate the object in place.  Returns the observed mapping and
the heap after the call. -/
def prepareCallSettings (h : Heap) (explicitArg : Option Nat)
    (backendMut : Settings → Settings) : Settings × Heap :=
  let a := settingsAddrForCall explicitArg
  (h a, heapSet h a (backendMut (h a)))

/-- The initial heap: the default dict is empty, as are all others. -/
def heap0 : Heap := fun _ => []

/-- The build call issued by `_prepare` for given arguments. -/
def prepCall (directory destination : Path) (editable : Bool)
    (config_settings : Settings) : BuildCall :=
  { source := directory,
    distribution := if !editable then "wheel" else "editable",
    destination := destination, config_settings := config_settings }

/-- The result value of the backend call as `_prepare` exposes it. -/
def backendResult (backend : Backend) (call : BuildCall) : Except PyExn Path :=
  match backend call with
  | BuildOutcome.ok artifact => Except.ok artifact
  | BuildOutcome.backendError e =>
      Except.error (PyExn.isolatedBuildError (translateBackendError e) none)
  | BuildOutcome.otherError e => Except.error (PyExn.external e)

/-- The project root chosen inside the unpacked temporary directory. -/
def sdistSourceDir (archiveName : String) (elements : List Entry)
    (tmp : Path) : Path :=
  match sdistRootDir archiveName elements with
  | some name => tmp ++ [name]
  | none => tmp

/-! ## Concrete fixtures used by witnesses and counterexamples -/

/-- A backend that always succeeds with a fixed wheel path. -/
def okBackend : Backend := fun _ => BuildOutcome.ok ["dist", "out.whl"]

/-- An unpack oracle producing no top-level entries. -/
def noEntries : Path → List Entry := fun _ => []

/-- An unpack oracle producing the single directory `proj-1.0`. -/
def projEntries : Path → List Entry := fun _ => [{ name := "proj-1.0", is_dir := true }]

/-- A cache oracle mapping every archive to the directory `cache`. -/
def cacheAt : Path → Path := fun _ => ["cache"]

/-- An empty initial world. -/
def w0 : World := { dirs := [], tempCounter := 0, events := [] }

/-- A world in which `mypkg` is an existing directory. -/
def wDir : World := { dirs := [["mypkg"]], tempCounter := 0, events := [] }

example : pySuffix "a.whl" = ".whl" := by decide
example : pySuffix ".whl" = "" := by decide
example : pySuffix "demo-0.1.0.tar.gz" = ".gz" := by decide
example : pySuffix "archive" = "" := by decide
example : pySuffix "foo." = "" := by decide
example : pyRstrip "demo-0.1.0.tar.gz" ".gz" = "demo-0.1.0.tar" := by decide
example : pyRstrip "pyzip.zip" ".zip" = "py" := by decide
example : pyRstrip "foo.zip" ".zip" = "foo" := by decide
example : pyRstrip "abc" "" = "abc" := by decide

example :
    (prepare okBackend projEntries cacheAt w0 ["proj-1.0.tar.gz"] none false
        [("k", "v")]).2.events
      = [Event.tmpdirEv ["poetry-tmp-0"], Event.mkdirEv ["cache"],
         Event.buildEv { source := ["poetry-tmp-0", "proj-1.0"],
                         distribution := "wheel", destination := ["cache"],
                         config_settings := [] },
         Event.rmtreeEv ["poetry-tmp-0"]] := by decide

/-! ## Branch-level run lemmas (shared by the claim theorems) -/

theorem _prepare_run (backend : Backend) (w : World) (d dest : Path)
    (ed : Bool) (cs : Settings) :
    _prepare backend w d dest ed cs
      = (backendResult backend (prepCall d dest ed cs),
         { w with events := w.events ++ [Event.buildEv (prepCall d dest ed cs)] }) := rfl

theorem _prepare_sdist_run (backend : Backend) (unpack : Path → List Entry)
    (cacheDir : Path → Path) (w : World) (archive : Path)
    (dest : Option Path) :
    _prepare_sdist backend unpack cacheDir w archive dest
      = (backendResult backend
           (prepCall (sdistSourceDir (pathName archive) (unpack archive)
                        (tempPath w.tempCounter))
              (dest.getD (cacheDir archive)) false []),
         { dirs := (selfAndAncestors (dest.getD (cacheDir archive))
                      ++ tempPath w.tempCounter :: w.dirs).filter
                     (fun q => !((tempPath w.tempCounter).isPrefixOf q)),
           tempCounter := w.tempCounter + 1,
           events := w.events
             ++ [Event.tmpdirEv (tempPath w.tempCounter)]
             ++ [Event.mkdirEv (dest.getD (cacheDir archive))]
             ++ [Event.buildEv (prepCall (sdistSourceDir (pathName archive)
                                  (unpack archive) (tempPath w.tempCounter))
                   (dest.getD (cacheDir archive)) false [])]
             ++ [Event.rmtreeEv (tempPath w.tempCounter)] }) := by
  cases dest <;> rfl

theorem prepare_wheel_run (backend : Backend) (unpack : Path → List Entry)
    (cacheDir : Path → Path) (w : World) (archive : Path) (out : Option Path)
    (ed : Bool) (cs : Settings) (h1 : is_dir w archive = false)
    (h2 : _is_wheel archive = true) :
    prepare backend unpack cacheDir w archive out ed cs
      = (Except.ok archive, w) := by
  simp [prepare, _should_prepare, h1, h2]

theorem prepare_dir_some_run (backend : Backend) (unpack : Path → List Entry)
    (cacheDir : Path → Path) (w : World) (archive d : Path) (ed : Bool)
    (cs : Settings) (hd : is_dir w archive = true) :
    prepare backend unpack cacheDir w archive (some d) ed cs
      = (backendResult backend (prepCall archive d ed cs),
         { w with events := w.events ++ [Event.buildEv (prepCall archive d ed cs)] }) := by
  simp [prepare, _should_prepare, hd, _prepare_run]

theorem prepare_dir_none_run (backend : Backend) (unpack : Path → List Entry)
    (cacheDir : Path → Path) (w : World) (archive : Path) (ed : Bool)
    (cs : Settings) (hd : is_dir w archive = true) :
    prepare backend unpack cacheDir w archive none ed cs
      = (backendResult backend
           (prepCall archive (tempPath w.tempCounter) ed cs),
         { dirs := tempPath w.tempCounter :: w.dirs,
           tempCounter := w.tempCounter + 1,
           events := w.events
             ++ [Event.mkdtempEv (tempPath w.tempCounter)]
             ++ [Event.buildEv (prepCall archive (tempPath w.tempCounter) ed cs)] }) := by
  simp [prepare, _should_prepare, hd, mkdtemp, _prepare_run]

theorem prepare_sdist_route (backend : Backend) (unpack : Path → List Entry)
    (cacheDir : Path → Path) (w : World) (archive : Path) (out : Option Path)
    (ed : Bool) (cs : Settings) (h1 : is_dir w archive = false)
    (h2 : _is_wheel archive = false) :
    prepare backend unpack cacheDir w archive out ed cs
      = _prepare_sdist backend unpack cacheDir w archive out := by
  simp [prepare, _should_prepare, h1, h2]

/-! ## C1 — wheel pass-through -/

/-- C1, counterexample: a non-directory artifact named exactly `.whl` has a
name that ends in the wheel extension, yet `prepare` does not return it
unchanged and does invoke a build, because pathlib gives the name `.whl` an
empty suffix, so `_is_wheel` is false and `_should_prepare` is true. -/
theorem C1_counterexample :
    strEndsWith (pathName [".whl"]) ".whl" = true
    ∧ is_dir w0 [".whl"] = false
    ∧ (prepare okBackend noEntries cacheAt w0 [".whl"] none false []).1
        ≠ Except.ok [".whl"]
    ∧ buildEvents (prepare okBackend noEntries cacheAt w0 [".whl"] none false []).2
        ≠ [] := by decide

/-- C1 (amended): for every artifact path that is not a directory and whose
pathlib suffix is `.whl` (its name ends in `.whl` and is not exactly `.whl`),
`prepare` returns the artifact path unchanged and invokes no build; for every
other artifact (any directory, or any non-directory whose suffix is not
`.whl`), preparation is performed, with exactly one backend build
invocation. -/
theorem C1_wheel_passthrough (backend : Backend) (unpack : Path → List Entry)
    (cacheDir : Path → Path) (w : World) (archive : Path) (out : Option Path)
    (ed : Bool) (cs : Settings) :
    (is_dir w archive = false ∧ pySuffix (pathName archive) = ".whl" →
        prepare backend unpack cacheDir w archive out ed cs
          = (Except.ok archive, w))
    ∧ (is_dir w archive = true ∨ pySuffix (pathName archive) ≠ ".whl" →
        (buildEvents (prepare backend unpack cacheDir w archive out ed cs).2).length
          = (buildEvents w).length + 1) := by
  constructor
  · rintro ⟨h1, h2⟩
    exact prepare_wheel_run backend unpack cacheDir w archive out ed cs h1
      (by simp [_is_wheel, h2])
  · intro h
    by_cases hd : is_dir w archive = true
    · cases out with
      | some d =>
          rw [prepare_dir_some_run backend unpack cacheDir w archive d ed cs hd]
          simp [buildEvents, List.filterMap_append]
      | none =>
          rw [prepare_dir_none_run backend unpack cacheDir w archive ed cs hd]
          simp [buildEvents, List.filterMap_append]
    · have h1 : is_dir w archive = false := by
        cases hval : is_dir w archive
        · rfl
        · exact absurd hval hd
      have h2 : pySuffix (pathName archive) ≠ ".whl" := by
        cases h with
        | inl hh => exact absurd hh hd
        | inr hh => exact hh
      rw [prepare_sdist_route backend unpack cacheDir w archive out ed cs h1
        (by simp [_is_wheel, h2])]
      rw [_prepare_sdist_run]
      simp [buildEvents, List.filterMap_append]

/-- C1, witness: the amended theorem applied to a concrete wheel file
(`pkg-1.0.whl`, returned unchanged) and to a concrete directory artifact
(`mypkg`, built exactly once). -/
theorem C1_witness :
    prepare okBackend noEntries cacheAt w0 ["pkg-1.0.whl"] none false []
        = (Except.ok ["pkg-1.0.whl"], w0)
    ∧ (buildEvents (prepare okBackend noEntries cacheAt wDir ["mypkg"] none false
          []).2).length = (buildEvents wDir).length + 1 :=
  ⟨(C1_wheel_passthrough okBackend noEntries cacheAt w0 ["pkg-1.0.whl"] none
      false []).1 (by decide),
   (C1_wheel_passthrough okBackend noEntries cacheAt wDir ["mypkg"] none
      false []).2 (by decide)⟩

/-! ## C2 — translation of backend failures -/

theorem bool_eq_false_of_ne_true {b : Bool} (h : ¬ b = true) : b = false := by
  cases b
  · rfl
  · exact absurd rfl h

/-- Whenever preparation is required, the result of `prepare` is the result
of exactly one backend build call, for some build call. -/
theorem prepare_fst_eq_backendResult (backend : Backend)
    (unpack : Path → List Entry) (cacheDir : Path → Path) (w : World)
    (archive : Path) (out : Option Path) (ed : Bool) (cs : Settings)
    (hp : _should_prepare w archive = true) :
    ∃ c : BuildCall,
      (prepare backend unpack cacheDir w archive out ed cs).1
        = backendResult backend c := by
  by_cases hd : is_dir w archive = true
  · cases out with
    | some d =>
        exact ⟨_, by rw [prepare_dir_some_run backend unpack cacheDir w archive d ed cs hd]⟩
    | none =>
        exact ⟨_, by rw [prepare_dir_none_run backend unpack cacheDir w archive ed cs hd]⟩
  · have h1 : is_dir w archive = false := bool_eq_false_of_ne_true hd
    have h2 : _is_wheel archive = false := by
      simp [_should_prepare, h1] at hp
      simp [hp]
    rw [prepare_sdist_route backend unpack cacheDir w archive out ed cs h1 h2,
      _prepare_sdist_run]
    exact ⟨_, rfl⟩

/-- C2: on every `prepare` call that performs a build, if the backend call
raises a `BuildBackendException` then `prepare` raises the translated
`IsolatedBuildError` — a `ChefError`-kind failure — with no chained cause
(`raise ... from None` discards the original); if the backend call raises any
other exception, that exact exception value propagates unmodified. -/
theorem C2_backend_failure_translation (unpack : Path → List Entry)
    (cacheDir : Path → Path) (w : World) (archive : Path) (out : Option Path)
    (ed : Bool) (cs : Settings) (e : BuildBackendException) (ex : ExternalExn)
    (hp : _should_prepare w archive = true) :
    ((prepare (fun _ => BuildOutcome.backendError e) unpack cacheDir w archive
          out ed cs).1
        = Except.error (PyExn.isolatedBuildError (translateBackendError e) none)
      ∧ (PyExn.isolatedBuildError (translateBackendError e) none).isChefErrorKind
          = true)
    ∧ (prepare (fun _ => BuildOutcome.otherError ex) unpack cacheDir w archive
          out ed cs).1
        = Except.error (PyExn.external ex) := by
  obtain ⟨c1, hc1⟩ := prepare_fst_eq_backendResult
    (fun _ => BuildOutcome.backendError e) unpack cacheDir w archive out ed cs hp
  obtain ⟨c2, hc2⟩ := prepare_fst_eq_backendResult
    (fun _ => BuildOutcome.otherError ex) unpack cacheDir w archive out ed cs hp
  exact ⟨⟨by rw [hc1]; rfl, rfl⟩, by rw [hc2]; rfl⟩

/-- C2, witness: the translation applied to a concrete directory build whose
backend fails with a process exit carrying stderr, and to one interrupted by
a foreign exception. -/
theorem C2_witness :
    ((prepare (fun _ => BuildOutcome.backendError
          { message := "Backend operation failed",
            exception := BackendCause.process
              { stderr := some "boom", stdout := none } })
          noEntries cacheAt wDir ["mypkg"] (some ["dest"]) false []).1
        = Except.error (PyExn.isolatedBuildError
            (translateBackendError
              { message := "Backend operation failed",
                exception := BackendCause.process
                  { stderr := some "boom", stdout := none } }) none)
      ∧ (PyExn.isolatedBuildError
            (translateBackendError
              { message := "Backend operation failed",
                exception := BackendCause.process
                  { stderr := some "boom", stdout := none } }) none).isChefErrorKind
          = true)
    ∧ (prepare (fun _ => BuildOutcome.otherError { id := 7, detail := "KeyboardInterrupt" })
          noEntries cacheAt wDir ["mypkg"] (some ["dest"]) false []).1
        = Except.error (PyExn.external { id := 7, detail := "KeyboardInterrupt" }) :=
  C2_backend_failure_translation noEntries cacheAt wDir ["mypkg"] (some ["dest"])
    false []
    { message := "Backend operation failed",
      exception := BackendCause.process { stderr := some "boom", stdout := none } }
    { id := 7, detail := "KeyboardInterrupt" } (by decide)

/-! ## C3 — sdist project-root detection -/

/-- C3, counterexample: for the archive `pyzip.zip` unpacking to the entries
`pyzip` (a directory) and `other`, the claimed algorithm picks the
suffix-stripped subdirectory `pyzip`, but the code computes the candidate
with `rstrip(suffix)` — which strips the trailing *characters* of the suffix
character set, yielding `py` — finds no such directory, and falls back to the
unpack directory itself; `_prepare_sdist` accordingly builds from the unpack
root, not from `pyzip`. -/
theorem C3_counterexample :
    sdistRootDir "pyzip.zip" (pyzipEntries ["pyzip.zip"]) = none
    ∧ sdistRootDirClaim "pyzip.zip" (pyzipEntries ["pyzip.zip"]) = some "pyzip"
    ∧ sdistRootDir "pyzip.zip" (pyzipEntries ["pyzip.zip"])
        ≠ sdistRootDirClaim "pyzip.zip" (pyzipEntries ["pyzip.zip"])
    ∧ (buildEvents (_prepare_sdist okBackend pyzipEntries cacheAt w0
          ["pyzip.zip"] none).2).map (fun c => c.source)
        = [["poetry-tmp-0"]] := by decide

/-- C3 (amended): the Project Root is resolved by: (2) if the unpack
directory has exactly one top-level entry and it is a directory, that entry;
(3) otherwise the subdirectory named after the archive's filename with a
trailing run of suffix-set characters stripped (Python `rstrip`, which equals
plain suffix removal whenever the remaining stem does not itself end in a
character of the suffix), when it exists and is a directory; (4) otherwise
the unpack directory itself. -/
theorem C3_root_detection (archiveName : String) (elements : List Entry) :
    sdistRootDir archiveName elements = sdistRootDirAmended archiveName elements := by
  match elements with
  | [] => rfl
  | [e] =>
      cases he : e.is_dir <;>
        simp [sdistRootDir, sdistRootDirAmended, fallbackRoot,
          amendedFallbackRoot, he]
  | e1 :: e2 :: es =>
      simp [sdistRootDir, sdistRootDirAmended, fallbackRoot,
        amendedFallbackRoot, List.length]

/-! ## C4 — forwarding of the settings mapping -/

/-- C4: evaluating the code at the failing input.  A `prepare` call on the
non-wheel archive `proj-1.0.tar.gz` with the non-empty settings mapping
`k := v` invokes the backend with *empty* settings — `prepare` does not pass
`config_settings` to `_prepare_sdist`, and `_prepare_sdist` calls `_prepare`
with its default empty dict — while the same settings on a directory
artifact are forwarded verbatim. -/
theorem C4_settings_dropped_on_sdist_path :
    buildEvents (prepare okBackend projEntries cacheAt w0 ["proj-1.0.tar.gz"]
        none false [("k", "v")]).2
      = [{ source := ["poetry-tmp-0", "proj-1.0"], distribution := "wheel",
           destination := ["cache"], config_settings := [] }]
    ∧ ([("k", "v")] : Settings) ≠ []
    ∧ buildEvents (prepare okBackend projEntries cacheAt wDir ["mypkg"]
        (some ["dest"]) false [("k", "v")]).2
      = [{ source := ["mypkg"], distribution := "wheel",
           destination := ["dest"], config_settings := [("k", "v")] }] := by
  decide

/-! ## C5 — composition of the failure message -/

/-- C5, counterexample: with a captured-but-empty stderr, the code's
`stderr or stdout` treats the empty byte string as falsy and appends the
decoded *stdout*, while the claim — stderr present, hence not absent —
prescribes the decoded stderr (the empty string) as the second part. -/
theorem C5_counterexample :
    translateBackendError emptyStderrExc
      = "Backend operation failed\n\nModuleNotFoundError: setuptools"
    ∧ composedMessageClaim emptyStderrExc = "Backend operation failed\n\n"
    ∧ translateBackendError emptyStderrExc ≠ composedMessageClaim emptyStderrExc := by
  decide

theorem intercalate_single (a s : String) :
    String.intercalate.go a s [] = a := rfl

theorem intercalate_pair (a s b : String) :
    String.intercalate.go a s [b] = a ++ s ++ b := rfl

/-- C5 (amended): the error message raised on a backend build failure is
composed order-sensitively — the backend exception's own description first,
joined by a blank line to the second part described by
`composedMessageAmended`; in particular the literal decoded stderr appears in
the message whenever stderr was captured non-empty. -/
theorem C5_message_composition (e : BuildBackendException) :
    translateBackendError e = composedMessageAmended e := by
  rcases e with ⟨msg, cause⟩
  cases cause with
  | process p =>
      rcases p with ⟨stderr, stdout⟩
      cases stderr with
      | none =>
          cases stdout <;>
            simp [translateBackendError, composedMessageAmended, pyOrBytes,
              String.intercalate, decode, intercalate_single, intercalate_pair]
      | some s =>
          by_cases hs : s = "" <;>
            cases stdout <;>
              simp [translateBackendError, composedMessageAmended, pyOrBytes,
                String.intercalate, decode, hs, intercalate_single,
                intercalate_pair]
  | other s =>
      simp [translateBackendError, composedMessageAmended, String.intercalate,
        intercalate_pair]

/-! ## C6 — directory builds: distribution kind and fresh destination -/

/-- C6: for every directory artifact, the single backend invocation uses
distribution `editable` iff the editable flag is set and `wheel` otherwise;
when no destination is supplied, the destination is the freshly minted
temporary directory, which did not exist beforehand and exists at build
time. -/
theorem C6_directory_distribution (backend : Backend)
    (unpack : Path → List Entry) (cacheDir : Path → Path) (w : World)
    (archive : Path) (out : Option Path) (ed : Bool) (cs : Settings)
    (hd : is_dir w archive = true)
    (hfresh : tempPath w.tempCounter ∉ w.dirs) :
    buildEvents (prepare backend unpack cacheDir w archive out ed cs).2
      = buildEvents w
        ++ [{ source := archive,
              distribution := if ed then "editable" else "wheel",
              destination := out.getD (tempPath w.tempCounter),
              config_settings := cs }]
    ∧ (out = none →
        out.getD (tempPath w.tempCounter) ∉ w.dirs
        ∧ (prepare backend unpack cacheDir w archive out ed cs).2.dirs
            = tempPath w.tempCounter :: w.dirs) := by
  cases out with
  | some d =>
      rw [prepare_dir_some_run backend unpack cacheDir w archive d ed cs hd]
      constructor
      · cases ed <;>
          simp [buildEvents, List.filterMap_append, prepCall, Option.getD]
      · intro h
        exact absurd h (by simp)
  | none =>
      rw [prepare_dir_none_run backend unpack cacheDir w archive ed cs hd]
      constructor
      · cases ed <;>
          simp [buildEvents, List.filterMap_append, prepCall, Option.getD]
      · intro _
        exact ⟨hfresh, rfl⟩

/-- C6, witness: a concrete editable build of the directory `mypkg` with no
destination supplied goes to the fresh temporary directory. -/
theorem C6_witness :
    buildEvents (prepare okBackend noEntries cacheAt wDir ["mypkg"] none true
        [("a", "b")]).2
      = buildEvents wDir
        ++ [{ source := ["mypkg"], distribution := "editable",
              destination := (none : Option Path).getD (tempPath wDir.tempCounter),
              config_settings := [("a", "b")] }]
    ∧ ((none : Option Path) = none →
        (none : Option Path).getD (tempPath wDir.tempCounter) ∉ wDir.dirs
        ∧ (prepare okBackend noEntries cacheAt wDir ["mypkg"] none true
            [("a", "b")]).2.dirs = tempPath wDir.tempCounter :: wDir.dirs) :=
  C6_directory_distribution okBackend noEntries cacheAt wDir ["mypkg"] none true
    [("a", "b")] (by decide) (by decide)

/-! ## C7 — scoped removal of the unpack directory -/

theorem isPrefixOf_self (l : Path) : l.isPrefixOf l = true :=
  List.isPrefixOf_iff_prefix.mpr (List.prefix_refl l)

/-- C7: on every `prepare` call routed through the sdist path, the temporary
unpack directory no longer exists when the call returns, and its removal is
the last action taken — for *every* backend behaviour, i.e. on successful
build, on backend build failure, and on any other exception from the build
call alike. -/
theorem C7_unpack_dir_removed (backend : Backend) (unpack : Path → List Entry)
    (cacheDir : Path → Path) (w : World) (archive : Path) (out : Option Path)
    (ed : Bool) (cs : Settings) (h1 : is_dir w archive = false)
    (h2 : _is_wheel archive = false) :
    tempPath w.tempCounter
        ∉ (prepare backend unpack cacheDir w archive out ed cs).2.dirs
    ∧ (prepare backend unpack cacheDir w archive out ed cs).2.events.getLast?
        = some (Event.rmtreeEv (tempPath w.tempCounter)) := by
  rw [prepare_sdist_route backend unpack cacheDir w archive out ed cs h1 h2,
    _prepare_sdist_run]
  constructor
  · intro hmem
    rw [List.mem_filter] at hmem
    have := hmem.2
    rw [isPrefixOf_self] at this
    simp at this
  · exact List.getLast?_concat _

/-- C7, witness: a concrete sdist preparation (with a successful backend)
leaves no trace of the temporary unpack directory. -/
theorem C7_witness :
    tempPath w0.tempCounter
        ∉ (prepare okBackend projEntries cacheAt w0 ["proj-1.0.tar.gz"] none
            false []).2.dirs
    ∧ (prepare okBackend projEntries cacheAt w0 ["proj-1.0.tar.gz"] none
          false []).2.events.getLast?
        = some (Event.rmtreeEv (tempPath w0.tempCounter)) :=
  C7_unpack_dir_removed okBackend projEntries cacheAt w0 ["proj-1.0.tar.gz"]
    none false [] (by decide) (by decide)

/-! ## C8 — creation of the supplied destination -/

/-- C8, counterexample: a `prepare` call on the directory artifact `mypkg`
with the supplied destination `dest`, which does not exist: the build is
invoked into `dest`, yet the Chef never creates it — no mkdir event occurs
and `dest` still does not exist afterwards — contradicting "created if
absent before the build result is produced into it". -/
theorem C8_counterexample :
    is_dir wDir ["mypkg"] = true
    ∧ (["dest"] : Path) ∉ wDir.dirs
    ∧ buildEvents (prepare okBackend noEntries cacheAt wDir ["mypkg"]
        (some ["dest"]) false []).2
      = [{ source := ["mypkg"], distribution := "wheel",
           destination := ["dest"], config_settings := [] }]
    ∧ (["dest"] : Path)
        ∉ (prepare okBackend noEntries cacheAt wDir ["mypkg"] (some ["dest"])
            false []).2.dirs
    ∧ (prepare okBackend noEntries cacheAt wDir ["mypkg"] (some ["dest"])
        false []).2.events.all (fun ev => ev ≠ Event.mkdirEv ["dest"]) = true := by
  decide

/-- C8 (amended): on the sdist path the destination — supplied or
cache-resolved — is created (with parents, tolerating prior existence)
strictly before the build invocation, as the event trace shows; on the
directory path the supplied destination is forwarded to the backend without
this core creating it. -/
theorem C8_destination_creation (backend : Backend)
    (unpack : Path → List Entry) (cacheDir : Path → Path) (w : World)
    (archive : Path) (out : Option Path) (ed : Bool) (cs : Settings) :
    (is_dir w archive = false → _is_wheel archive = false →
      (prepare backend unpack cacheDir w archive out ed cs).2.events
        = w.events
          ++ [Event.tmpdirEv (tempPath w.tempCounter)]
          ++ [Event.mkdirEv (out.getD (cacheDir archive))]
          ++ [Event.buildEv (prepCall
                (sdistSourceDir (pathName archive) (unpack archive)
                  (tempPath w.tempCounter))
                (out.getD (cacheDir archive)) false [])]
          ++ [Event.rmtreeEv (tempPath w.tempCounter)])
    ∧ (is_dir w archive = true → ∀ d, out = some d →
      (prepare backend unpack cacheDir w archive out ed cs).2.events
        = w.events ++ [Event.buildEv (prepCall archive d ed cs)]) := by
  constructor
  · intro h1 h2
    rw [prepare_sdist_route backend unpack cacheDir w archive out ed cs h1 h2,
      _prepare_sdist_run]
  · intro hd d hout
    subst hout
    rw [prepare_dir_some_run backend unpack cacheDir w archive d ed cs hd]

/-- C8, witness: the amended theorem applied to a concrete sdist preparation
with a supplied destination and to a concrete directory build with a
supplied destination. -/
theorem C8_witness :
    (prepare okBackend projEntries cacheAt w0 ["proj-1.0.tar.gz"]
        (some ["given"]) false []).2.events
      = w0.events
        ++ [Event.tmpdirEv (tempPath w0.tempCounter)]
        ++ [Event.mkdirEv ((some ["given"] : Option Path).getD
              (cacheAt ["proj-1.0.tar.gz"]))]
        ++ [Event.buildEv (prepCall
              (sdistSourceDir (pathName ["proj-1.0.tar.gz"])
                (projEntries ["proj-1.0.tar.gz"]) (tempPath w0.tempCounter))
              ((some ["given"] : Option Path).getD (cacheAt ["proj-1.0.tar.gz"]))
              false [])]
        ++ [Event.rmtreeEv (tempPath w0.tempCounter)]
    ∧ (prepare okBackend noEntries cacheAt wDir ["mypkg"] (some ["dest"])
        false []).2.events
      = wDir.events ++ [Event.buildEv (prepCall ["mypkg"] ["dest"] false [])] :=
  ⟨(C8_destination_creation okBackend projEntries cacheAt w0
      ["proj-1.0.tar.gz"] (some ["given"]) false []).1 (by decide) (by decide),
   (C8_destination_creation okBackend noEntries cacheAt wDir ["mypkg"]
      (some ["dest"]) false []).2 (by decide) ["dest"] rfl⟩

/-! ## C9 — the shared mutable default settings mapping -/

/-- C9: evaluating the code at the failing input.  Two `prepare` calls, both
omitting `config_settings`, resolve to the *same* shared default dict
object; when the backend of the first call inserts a key into the mapping it
received, the second call observes the mutated, non-empty mapping — the
default is neither fresh nor unshared. -/
theorem C9_shared_default_mutation_observed :
    settingsAddrForCall none = prepareDefaultSettingsAddr
    ∧ (prepareCallSettings heap0 none (fun s => ("injected", "1") :: s)).1 = []
    ∧ (prepareCallSettings
        (prepareCallSettings heap0 none (fun s => ("injected", "1") :: s)).2
        none (fun s => s)).1
      = [("injected", "1")]
    ∧ ([("injected", "1")] : Settings) ≠ [] := by
  refine ⟨rfl, rfl, rfl, by decide⟩

/-! ## C10 — process failure with no captured output -/

/-- C10: when the backend build exception's inner cause is a process exit
failure with both captured streams absent (`None`), the error raised by
`prepare` is the `IsolatedBuildError` whose message is *exactly* the backend
exception's own description — no second part, no blank-line separator. -/
theorem C10_message_is_bare_description (unpack : Path → List Entry)
    (cacheDir : Path → Path) (w : World) (archive : Path) (out : Option Path)
    (ed : Bool) (cs : Settings) (msg : String)
    (hp : _should_prepare w archive = true) :
    (prepare
        (fun _ => BuildOutcome.backendError
          { message := msg,
            exception := BackendCause.process { stderr := none, stdout := none } })
        unpack cacheDir w archive out ed cs).1
      = Except.error (PyExn.isolatedBuildError msg none) := by
  obtain ⟨c, hc⟩ := prepare_fst_eq_backendResult
    (fun _ => BuildOutcome.backendError
      { message := msg,
        exception := BackendCause.process { stderr := none, stdout := none } })
    unpack cacheDir w archive out ed cs hp
  rw [hc]
  rfl

/-- C10, witness: a concrete silent process failure on a directory build
yields exactly the backend's own description. -/
theorem C10_witness :
    (prepare
        (fun _ => BuildOutcome.backendError
          { message := "Backend operation failed",
            exception := BackendCause.process { stderr := none, stdout := none } })
        noEntries cacheAt wDir ["mypkg"] (some ["dest"]) false []).1
      = Except.error (PyExn.isolatedBuildError "Backend operation failed" none) :=
  C10_message_is_bare_description noEntries cacheAt wDir ["mypkg"]
    (some ["dest"]) false [] "Backend operation failed" (by decide)

end Chef
